import Mathlib

/-!
Verification of the synthetic e-commerce behavioral event generator and its
derived analytics pipeline (RFM scoring, conversion funnel), shallowly embedded
from the Python sources Home.py, pages/2_Advanced_Dashboard.py and dashboard.py.

The program's randomness (Python's random / numpy.random modules, seeded once)
is modelled as an explicit stream of natural numbers threaded through every
generator stage: random.randint(a, b) consumes one stream value v and returns
a + v % (b + 1 - a), random.random() < p consumes one value and compares it
against p scaled to parts per ten thousand, random.choice picks an index
modulo the list length, and random.sample repeatedly picks and removes an
index without replacement.  Properties proved below are universally quantified
over the stream, so they hold for every run of the program.

Datetimes are modelled as integer seconds (days * 86400); float arithmetic of
the source is modelled exactly over the rationals.
-/

namespace UserBehavior

/-- Explicit random source: an infinite stream of naturals and a cursor. -/
structure Rng where
  stream : Nat → Nat
  idx : Nat

def Rng.next (r : Rng) : Nat × Rng :=
  (r.stream r.idx, { r with idx := r.idx + 1 })

/-- Model of random.randint(a, b): one draw, result in [a, b] whenever a ≤ b. -/
def randint (a b : Nat) (r : Rng) : Nat × Rng :=
  (a + r.next.1 % (b + 1 - a), r.next.2)

/-- Model of random.random() < p, with p given in parts per ten thousand. -/
def bern (pTenThousand : Nat) (r : Rng) : Bool × Rng :=
  (decide (r.next.1 % 10000 < pTenThousand), r.next.2)

/-- Model of random.uniform(10, 500) rounded to two decimals (product price). -/
def pythonRound (q : ℚ) : ℤ :=
  if q - ⌊q⌋ < 1 / 2 then ⌊q⌋
  else if 1 / 2 < q - ⌊q⌋ then ⌊q⌋ + 1
  else if ⌊q⌋ % 2 = 0 then ⌊q⌋ else ⌊q⌋ + 1

def round2 (q : ℚ) : ℚ :=
  (pythonRound (q * 100) : ℚ) / 100

def uniformPrice (r : Rng) : ℚ × Rng :=
  (round2 (10 + ((r.next.1 % 1000000 : ℕ) : ℚ) / 1000000 * 490), r.next.2)

/-- Remove the element at an index (used by the random.sample model). -/
def removeNth {α : Type} : List α → Nat → List α
  | [], _ => []
  | _ :: xs, 0 => xs
  | x :: xs, n + 1 => x :: removeNth xs n

/-- Model of random.sample(l, k): k draws without replacement. -/
def randSample {α : Type} : List α → Nat → Rng → List α × Rng
  | _, 0, r => ([], r)
  | [], _ + 1, r => ([], r)
  | a :: tl, k + 1, r =>
    let i := r.next.1 % (a :: tl).length
    let x := (a :: tl).get ⟨i, Nat.mod_lt _ (Nat.succ_pos tl.length)⟩
    let rest := randSample (removeNth (a :: tl) i) k r.next.2
    (x :: rest.1, rest.2)

def padZeros (w n : Nat) : String :=
  String.mk (List.replicate (w - (toString n).length) '0') ++ toString n

/-- Product record (Home.py generate_products). -/
structure Product where
  product_id : String
  product_name : String
  category : String
  price : ℚ
deriving DecidableEq, Repr

def defaultProduct : Product :=
  { product_id := "P0000", product_name := "", category := "", price := 0 }

/-- Model of random.choice over the product catalog. -/
def randChoice (l : List Product) (r : Rng) : Product × Rng :=
  (l.getD (r.next.1 % l.length) defaultProduct, r.next.2)

/-- User record (Home.py generate_users); registration_date in days. -/
structure User where
  user_id : String
  email : String
  registration_date : Int
  age : Nat
  gender : String
  location : String
  segment : String
deriving DecidableEq, Repr

/-- Event kinds emitted by the simulator. -/
inductive EventType
  | session_start
  | product_view
  | add_to_cart
  | purchase
  | session_end
deriving DecidableEq, Repr

/-- Event record; timestamp in seconds, identifiers as ordinals. -/
structure Event where
  event_id : Nat
  user_id : String
  session_id : Nat
  event_type : EventType
  timestamp : Int
  product_id : Option String
  category : Option String
  price : Option ℚ
  quantity : Option Nat
deriving DecidableEq, Repr

/-- The fixed hardcoded category list of EcommerceDataGenerator. -/
def categories : List String :=
  ["Electronics", "Clothing", "Home & Garden", "Books", "Sports", "Beauty", "Toys"]

def productNames (c : String) : List String :=
  if c = "Electronics" then
    ["Smartphone", "Laptop", "Headphones", "Tablet", "Smartwatch", "Camera"]
  else if c = "Clothing" then
    ["T-shirt", "Jeans", "Dress", "Jacket", "Shoes", "Sweater"]
  else if c = "Home & Garden" then
    ["Coffee Maker", "Vacuum", "Plant Pot", "Lamp", "Curtains", "Pillow"]
  else if c = "Books" then
    ["Fiction Novel", "Cookbook", "Biography", "Self-help", "Textbook", "Comics"]
  else if c = "Sports" then
    ["Running Shoes", "Yoga Mat", "Dumbbell", "Bicycle", "Football", "Water Bottle"]
  else if c = "Beauty" then
    ["Skincare Set", "Makeup Kit", "Perfume", "Shampoo", "Moisturizer", "Lipstick"]
  else if c = "Toys" then
    ["Board Game", "Action Figure", "Puzzle", "Building Blocks", "Doll", "Remote Car"]
  else []

/-- Inner loop of generate_products over one category's item names. -/
def prodInner (cat : String) : List String → Nat → Rng → List Product × Rng
  | [], _, r => ([], r)
  | nm :: nms, n, r =>
    let pr := uniformPrice r
    let p : Product :=
      { product_id := "P" ++ padZeros 4 (n + 1), product_name := nm,
        category := cat, price := pr.1 }
    let rest := prodInner cat nms (n + 1) pr.2
    (p :: rest.1, rest.2)

/-- Outer loop of generate_products over the category list. -/
def prodOuter : List String → Nat → Rng → List Product × Rng
  | [], _, r => ([], r)
  | c :: cs, n, r =>
    let ps := prodInner c (productNames c) n r
    let rest := prodOuter cs (n + ps.1.length) ps.2
    (ps.1 ++ rest.1, rest.2)

def generateProducts (cats : List String) (r : Rng) : List Product × Rng :=
  prodOuter cats 0 r

/-- The generator object built by EcommerceDataGenerator.__init__; note the
constructor performs no validation of its parameters. -/
structure EcommerceDataGenerator where
  num_users : Int
  num_days : Int
  start_date : Int
  end_date : Int
  categories : List String
  products : List Product
  user_segments : List String

def mkGenerator (numUsers numDays startDate : Int) (r : Rng) :
    EcommerceDataGenerator × Rng :=
  let pr := generateProducts categories r
  ({ num_users := numUsers, num_days := numDays, start_date := startDate,
     end_date := startDate + numDays, categories := categories,
     products := pr.1,
     user_segments := ["High Value", "Regular", "Occasional", "New"] }, pr.2)

/-- Model of np.random.choice over user segments with weights 0.1/0.5/0.3/0.1. -/
def segChoice (r : Rng) : String × Rng :=
  (if r.next.1 % 10 < 1 then "High Value"
   else if r.next.1 % 10 < 6 then "Regular"
   else if r.next.1 % 10 < 9 then "Occasional"
   else "New", r.next.2)

/-- Loop body of generate_users over user ordinals. -/
def usersLoop (startDate : Int) : List Nat → Rng → List User × Rng
  | [], r => ([], r)
  | i :: is, r =>
    let sg := segChoice r
    let rd := if sg.1 = "New" then randint 150 180 sg.2 else randint 0 100 sg.2
    let ag := randint 18 65 rd.2
    let gv := ag.2.next
    let u : User :=
      { user_id := "U" ++ padZeros 6 (i + 1),
        email := "user" ++ toString (i + 1) ++ "@example.com",
        registration_date := startDate + (rd.1 : Int),
        age := ag.1,
        gender := if gv.1 % 2 = 0 then "M" else "F",
        location := "City" ++ toString (i + 1),
        segment := sg.1 }
    let rest := usersLoop startDate is gv.2
    (u :: rest.1, rest.2)

def generateUsers (g : EcommerceDataGenerator) (r : Rng) : List User × Rng :=
  usersLoop g.start_date (List.range g.num_users.toNat) r

/-- Behaviour parameters per segment: sessions_per_month (random in a range),
purchase_probability (parts per ten thousand) and avg_session_length. -/
def segmentParams (segment : String) (r : Rng) : (Nat × Nat × Nat) × Rng :=
  if segment = "High Value" then
    let a := randint 4 10 r
    let b := randint 3 8 a.2
    ((a.1, 3000, b.1), b.2)
  else if segment = "Regular" then
    let a := randint 2 6 r
    let b := randint 2 5 a.2
    ((a.1, 1500, b.1), b.2)
  else if segment = "Occasional" then
    let a := randint 1 3 r
    let b := randint 1 3 a.2
    ((a.1, 800, b.1), b.2)
  else
    let a := randint 1 2 r
    let b := randint 1 2 a.2
    ((a.1, 500, b.1), b.2)

def sessionStartEvent (eid : Nat) (uid : String) (sid : Nat) (t : Int) : Event :=
  { event_id := eid, user_id := uid, session_id := sid,
    event_type := .session_start, timestamp := t,
    product_id := none, category := none, price := none, quantity := none }

def sessionEndEvent (eid : Nat) (uid : String) (sid : Nat) (t : Int) : Event :=
  { event_id := eid, user_id := uid, session_id := sid,
    event_type := .session_end, timestamp := t,
    product_id := none, category := none, price := none, quantity := none }

def viewEvent (eid : Nat) (uid : String) (sid : Nat) (t : Int) (p : Product) : Event :=
  { event_id := eid, user_id := uid, session_id := sid,
    event_type := .product_view, timestamp := t,
    product_id := some p.product_id, category := some p.category,
    price := some p.price, quantity := none }

def cartEvent (eid : Nat) (uid : String) (sid : Nat) (t : Int) (p : Product) (q : Nat) : Event :=
  { event_id := eid, user_id := uid, session_id := sid,
    event_type := .add_to_cart, timestamp := t,
    product_id := some p.product_id, category := some p.category,
    price := some p.price, quantity := some q }

def purchaseEvent (eid : Nat) (uid : String) (sid : Nat) (t : Int) (p : Product) (q : Nat) : Event :=
  { event_id := eid, user_id := uid, session_id := sid,
    event_type := .purchase, timestamp := t,
    product_id := some p.product_id, category := some p.category,
    price := some p.price, quantity := some q }

/-- Browse loop: each iteration picks a product, advances the session clock by
1 to 5 minutes and emits a product_view event.  Returns the viewed products,
the emitted events, the final clock and the random source.  The event-id base
tracks len(events) + 1 of the source. -/
def viewLoop (products : List Product) (uid : String) (sid : Nat) :
    Nat → Nat → Int → Rng → List Product × List Event × Int × Rng
  | 0, _, t, r => ([], [], t, r)
  | n + 1, eid, t, r =>
    let pc := randChoice products r
    let g := randint 1 5 pc.2
    let t1 := t + (g.1 : Int) * 60
    let rest := viewLoop products uid sid n (eid + 1) t1 g.2
    (pc.1 :: rest.1, viewEvent eid uid sid t1 pc.1 :: rest.2.1, rest.2.2.1, rest.2.2.2)

/-- Cart loop: per cart product, advance the clock by 1 to 3 minutes, draw a
quantity of 1 to 3 and emit an add_to_cart event. -/
def cartLoop (uid : String) (sid : Nat) :
    List Product → Nat → Int → Rng → List Event × Int × Rng
  | [], _, t, r => ([], t, r)
  | p :: ps, eid, t, r =>
    let g := randint 1 3 r
    let t1 := t + (g.1 : Int) * 60
    let q := randint 1 3 g.2
    let rest := cartLoop uid sid ps (eid + 1) t1 q.2
    (cartEvent eid uid sid t1 p q.1 :: rest.1, rest.2.1, rest.2.2)

/-- Purchase loop: per purchased product, advance the clock by 1 to 2 minutes,
draw a quantity of 1 to 2 and emit a purchase event. -/
def purchLoop (uid : String) (sid : Nat) :
    List Product → Nat → Int → Rng → List Event × Int × Rng
  | [], _, t, r => ([], t, r)
  | p :: ps, eid, t, r =>
    let g := randint 1 2 r
    let t1 := t + (g.1 : Int) * 60
    let q := randint 1 2 g.2
    let rest := purchLoop uid sid ps (eid + 1) t1 q.2
    (purchaseEvent eid uid sid t1 p q.1 :: rest.1, rest.2.1, rest.2.2)

/-- The part of a session after the browse loop: when products were viewed,
sample a cart of size min(len(viewed), randint(1, 2)), emit add_to_cart
events, run the Bernoulli purchase trial, possibly emit purchase events for a
sample of the cart, and finally emit session_end after a 1 to 5 minute gap. -/
def cartAndRest (uid : String) (sid : Nat) (pProb : Nat) (eidBase : Nat)
    (sps : List Product) (t1 : Int) (r1 : Rng) : List Event × Rng :=
  if sps.isEmpty then
    let g := randint 1 5 r1
    ([sessionEndEvent eidBase uid sid (t1 + (g.1 : Int) * 60)], g.2)
  else
    let k0 := randint 1 2 r1
    let sc := randSample sps (min sps.length k0.1) k0.2
    let cl := cartLoop uid sid sc.1 eidBase t1 sc.2
    let b := bern pProb cl.2.2
    if b.1 && !sc.1.isEmpty then
      let pk := randint 1 sc.1.length b.2
      let sp := randSample sc.1 pk.1 pk.2
      let pl := purchLoop uid sid sp.1 (eidBase + cl.1.length) cl.2.1 sp.2
      let g := randint 1 5 pl.2.2
      (cl.1 ++ (pl.1 ++ [sessionEndEvent (eidBase + cl.1.length + pl.1.length) uid sid
        (pl.2.1 + (g.1 : Int) * 60)]), g.2)
    else
      let g := randint 1 5 b.2
      (cl.1 ++ [sessionEndEvent (eidBase + cl.1.length) uid sid
        (cl.2.1 + (g.1 : Int) * 60)], g.2)

/-- One session of generate_user_events: draw the session date and start time,
emit session_start, browse randint(1, avg_session_length) products, then run
cartAndRest.  nEvents is len(events) before the session starts. -/
def genSession (products : List Product) (uid : String) (regDay : Int)
    (daysActive : Nat) (pProb asl : Nat) (nEvents : Nat) (r : Rng) :
    List Event × Rng :=
  let dOff := randint 0 daysActive r
  let hh := randint 8 22 dOff.2
  let mm := randint 0 59 hh.2
  let ss := randint 0 59 mm.2
  let t0 : Int := (regDay + (dOff.1 : Int)) * 86400 + (hh.1 : Int) * 3600 +
    (mm.1 : Int) * 60 + (ss.1 : Int)
  let nv := randint 1 asl ss.2
  let vl := viewLoop products uid (nEvents + 1) nv.1 (nEvents + 2) t0 nv.2
  let rest := cartAndRest uid (nEvents + 1) pProb (nEvents + 2 + vl.2.1.length)
    vl.1 vl.2.2.1 vl.2.2.2
  (sessionStartEvent (nEvents + 1) uid (nEvents + 1) t0 :: (vl.2.1 ++ rest.1), rest.2)

/-- Session loop for one user: total_sessions independent sessions. -/
def sessionsLoop (products : List Product) (uid : String) (regDay : Int)
    (daysActive : Nat) (pProb asl : Nat) :
    Nat → Nat → Rng → List Event × Rng
  | 0, _, r => ([], r)
  | m + 1, nEvents, r =>
    let s := genSession products uid regDay daysActive pProb asl nEvents r
    let rest := sessionsLoop products uid regDay daysActive pProb asl m
      (nEvents + s.1.length) s.2
    (s.1 ++ rest.1, rest.2)

/-- Per-user part of generate_user_events: derive segment parameters, compute
days_active = end_date - registration_date, skip the user when ≤ 0, cap
total_sessions = min(int(days_active / 30 * sessions_per_month), 20).  Python's
int() truncation of the positive float is modelled as exact floor division. -/
def userEvents (products : List Product) (u : User) (endDate : Int)
    (nEvents : Nat) (r : Rng) : List Event × Rng :=
  let sp := segmentParams u.segment r
  let daysActive : Int := endDate - u.registration_date
  if daysActive ≤ 0 then ([], sp.2)
  else
    sessionsLoop products u.user_id u.registration_date daysActive.toNat
      sp.1.2.1 sp.1.2.2 (min (daysActive.toNat * sp.1.1 / 30) 20) nEvents sp.2

/-- generate_user_events over the user list, threading the global event count. -/
def generateUserEvents (g : EcommerceDataGenerator) :
    List User → Nat → Rng → List Event × Rng
  | [], _, r => ([], r)
  | u :: us, n, r =>
    let ue := userEvents g.products u g.end_date n r
    let rest := generateUserEvents g us (n + ue.1.length) ue.2
    (ue.1 ++ rest.1, rest.2)

/-- Seeded stream: a linear congruential generator standing in for the seeded
Mersenne Twister; the analysis never depends on the distribution of values. -/
def lcg (seed : Nat) : Nat → Nat
  | 0 => seed % 4294967296
  | n + 1 => (1664525 * lcg seed n + 1013904223) % 4294967296

def mkRng (seed : Nat) : Rng :=
  { stream := lcg seed, idx := 0 }

/-- generate_sample_data: seed the random source, build the generator (and its
catalog), generate users, then the full event log. -/
def generateSampleData (numUsers numDays : Int) (seed : Nat) :
    List User × List Product × List Event :=
  let r := mkRng seed
  let gr := mkGenerator numUsers numDays 0 r
  let ur := generateUsers gr.1 gr.2
  let er := generateUserEvents gr.1 ur.1 0 ur.2
  (ur.1, gr.1.products, er.1)

/-! Metric engine: RFM scoring (pages/2_Advanced_Dashboard.py
calculate_rfm_scores) and the conversion funnel (calculate_conversion_metrics
there, funnel_data in dashboard.py). -/

/-- Insertion sort over the rationals (the order pandas quantile uses). -/
def insertQ (x : ℚ) : List ℚ → List ℚ
  | [] => [x]
  | y :: ys => if x ≤ y then x :: y :: ys else y :: insertQ x ys

def sortQ : List ℚ → List ℚ
  | [] => []
  | x :: xs => insertQ x (sortQ xs)

/-- Insertion sort over strings (pandas groupby sorts group keys). -/
def insertStr (x : String) : List String → List String
  | [] => [x]
  | y :: ys => if x ≤ y then x :: y :: ys else y :: insertStr x ys

def sortStr : List String → List String
  | [] => []
  | x :: xs => insertStr x (sortStr xs)

/-- The k/5 quantile of a sorted list, by linear interpolation at position
(n - 1) * k / 5, as pandas Series.quantile computes it. -/
def quantileAt (s : List ℚ) (k : Nat) : ℚ :=
  let hNum := (s.length - 1) * k
  let lo := hNum / 5
  let hi := if hNum % 5 = 0 then lo else lo + 1
  let a := s.getD lo 0
  let b := s.getD hi 0
  a + (((hNum % 5 : ℕ) : ℚ) / 5) * (b - a)

/-- Index of the half-open quantile bin containing x, given the four interior
bin edges; the lowest bin absorbs everything up to the first interior edge
(pd.qcut includes the minimum in the first bin). -/
def binIndex : List ℚ → ℚ → Nat
  | [], _ => 0
  | e :: es, x => if x ≤ e then 0 else binIndex es x + 1

/-- Model of pd.qcut(values, q=5, labels): compute the six quantile edges of
the data; if any two edges coincide pandas raises
ValueError("Bin edges must be unique"); otherwise label each value by its bin. -/
def qcut5 (values : List ℚ) (labels : List Int) : Except String (List Int) :=
  let s := sortQ values
  let edges := [quantileAt s 0, quantileAt s 1, quantileAt s 2,
    quantileAt s 3, quantileAt s 4, quantileAt s 5]
  if edges.dedup.length = 6 then
    .ok (values.map (fun x =>
      labels.getD (binIndex [quantileAt s 1, quantileAt s 2,
        quantileAt s 3, quantileAt s 4] x) 0))
  else .error "Bin edges must be unique"

/-- Fixed threshold bands of segment_customers. -/
def segmentCustomers (score : Int) : String :=
  if score ≥ 13 then "Champions"
  else if score ≥ 10 then "Loyal Customers"
  else if score ≥ 8 then "At Risk"
  else if score ≥ 6 then "Can\x27t Lose"
  else "Lost"

/-- One row of the RFM result frame. -/
structure RfmRow where
  user_id : String
  recency : Int
  frequency : Nat
  monetary : ℚ
  R_score : Int
  F_score : Int
  M_score : Int
  RFM_score : Int
  segment : String
deriving DecidableEq, Repr

/-- Latest purchase timestamp of a group (pandas x.max()). -/
def maxTs : List Event → Int
  | [] => 0
  | e :: es => es.foldl (fun m x => max m x.timestamp) e.timestamp

/-- Per-user raw RFM metrics: recency in whole days between now and the most
recent purchase (timedelta .days floors), frequency as the purchase-event
count, monetary as the sum of price * quantity over the user's purchases. -/
def rfmBase (purchases : List Event) (now : Int) (uid : String) :
    String × Int × Nat × ℚ :=
  let mine := purchases.filter (fun e => decide (e.user_id = uid))
  (uid, (now - maxTs mine).fdiv 86400, mine.length,
   (mine.map (fun e => e.price.getD 0 * ((e.quantity.getD 0 : ℕ) : ℚ))).sum)

/-- Assemble the scored rows: RFM_score = R + F + M and the threshold segment. -/
def zipRows : List (String × Int × Nat × ℚ) → List Int → List Int → List Int →
    List RfmRow
  | b :: bs, x :: xs, y :: ys, z :: zs =>
    { user_id := b.1, recency := b.2.1, frequency := b.2.2.1,
      monetary := b.2.2.2, R_score := x, F_score := y, M_score := z,
      RFM_score := x + y + z, segment := segmentCustomers (x + y + z) } ::
      zipRows bs xs ys zs
  | _, _, _, _ => []

/-- calculate_rfm_scores(users, events): the users argument of the source is
unused; now is the wall-clock instant datetime.now() read by the recency
lambda.  Zero purchase events yield an empty frame; any qcut with coinciding
bin edges raises. -/
def calculateRfmScores (events : List Event) (now : Int) :
    Except String (List RfmRow) :=
  let purchases := events.filter (fun e => decide (e.event_type = .purchase))
  if purchases.isEmpty then .ok []
  else
    let uids := sortStr (purchases.map (fun e => e.user_id)).dedup
    let bases := uids.map (rfmBase purchases now)
    match qcut5 (bases.map (fun b => ((b.2.1 : ℤ) : ℚ))) [5, 4, 3, 2, 1],
          qcut5 (bases.map (fun b => ((b.2.2.1 : ℕ) : ℚ))) [1, 2, 3, 4, 5],
          qcut5 (bases.map (fun b => b.2.2.2)) [1, 2, 3, 4, 5] with
    | .ok rs, .ok fs, .ok ms => .ok (zipRows bases rs fs ms)
    | _, _, _ => .error "Bin edges must be unique"

/-- Result record of calculate_conversion_metrics, rates in percent. -/
structure ConversionMetrics where
  total_sessions : Nat
  view_rate : ℚ
  cart_rate : ℚ
  purchase_rate : ℚ
deriving DecidableEq, Repr

/-- Per-session funnel booleans of calculate_conversion_metrics. -/
def sessionFlags (events : List Event) (sid : Nat) : Bool × Bool × Bool :=
  let se := events.filter (fun e => decide (e.session_id = sid))
  (se.any (fun e => decide (e.event_type = .product_view)),
   se.any (fun e => decide (e.event_type = .add_to_cart)),
   se.any (fun e => decide (e.event_type = .purchase)))

/-- calculate_conversion_metrics: sessions are keyed by session_start events;
with zero such sessions the source builds an empty DataFrame, indexes the
missing has_view column and divides by zero, i.e. it raises instead of
reporting zero rates. -/
def calculateConversionMetrics (events : List Event) :
    Except String ConversionMetrics :=
  let sessions :=
    ((events.filter (fun e => decide (e.event_type = .session_start))).map
      (fun e => e.session_id)).dedup
  let flags := sessions.map (sessionFlags events)
  if flags.length = 0 then .error "KeyError"
  else
    .ok { total_sessions := flags.length,
          view_rate := ((flags.countP (fun f => f.1) : ℕ) : ℚ) /
            (flags.length : ℚ) * 100,
          cart_rate := ((flags.countP (fun f => f.2.1) : ℕ) : ℚ) /
            (flags.length : ℚ) * 100,
          purchase_rate := ((flags.countP (fun f => f.2.2) : ℕ) : ℚ) /
            (flags.length : ℚ) * 100 }

/-- funnel_data of dashboard.py: per-stage distinct session counts with the
explicit total_sessions > 0 guard, rates reported as 0 otherwise. -/
def funnelRates (events : List Event) : ℚ × ℚ × ℚ :=
  let stage := fun (ty : EventType) =>
    ((events.filter (fun e => decide (e.event_type = ty))).map
      (fun e => e.session_id)).dedup.length
  let total := stage .session_start
  (if 0 < total then ((stage .product_view : ℕ) : ℚ) / total * 100 else 0,
   if 0 < total then ((stage .add_to_cart : ℕ) : ℚ) / total * 100 else 0,
   if 0 < total then ((stage .purchase : ℕ) : ℚ) / total * 100 else 0)

/-! Specification predicates and concrete inputs used by the theorems. -/

/-- Timestamps of a list of events are strictly increasing, and all are
strictly later than the given base instant. -/
def tsAsc : Int → List Event → Prop
  | _, [] => True
  | t, e :: es => t < e.timestamp ∧ tsAsc e.timestamp es

/-- The final session clock after a list of events (the base if none). -/
def lastT : Int → List Event → Int
  | t, [] => t
  | _, e :: es => lastT e.timestamp es

/-- Product references carried by the events of one kind inside a log. -/
def sessionPids (ty : EventType) (l : List Event) : List (Option String) :=
  (l.filter (fun e => decide (e.event_type = ty))).map (fun e => e.product_id)

/-- A concrete all-zero random stream for witnesses. -/
def rngZero : Rng := { stream := fun _ => 0, idx := 0 }

/-- A concrete user whose tenure is 29 days at end_date = 180 (registration on
day 151, segment New). -/
def newUser29 : User :=
  { user_id := "U000001", email := "user1@example.com", registration_date := 151,
    age := 30, gender := "F", location := "City1", segment := "New" }

/-- A concrete purchase event for metric-engine witnesses. -/
def purchaseDemo (eid : Nat) (uid : String) (ts : Int) (price : ℚ) : Event :=
  { event_id := eid, user_id := uid, session_id := eid, event_type := .purchase,
    timestamp := ts, product_id := some "P0001", category := some "Electronics",
    price := some price, quantity := some 1 }

/-- Fifteen purchase events across five users with five distinct recency,
frequency and monetary values, so that every quantile cut succeeds. -/
def rfmDemoEvents : List Event :=
  [purchaseDemo 1 "U000001" 86400 10,
   purchaseDemo 2 "U000002" 172800 20, purchaseDemo 3 "U000002" 172800 20,
   purchaseDemo 4 "U000003" 259200 30, purchaseDemo 5 "U000003" 259200 30,
   purchaseDemo 6 "U000003" 259200 30,
   purchaseDemo 7 "U000004" 345600 40, purchaseDemo 8 "U000004" 345600 40,
   purchaseDemo 9 "U000004" 345600 40, purchaseDemo 10 "U000004" 345600 40,
   purchaseDemo 11 "U000005" 432000 50, purchaseDemo 12 "U000005" 432000 50,
   purchaseDemo 13 "U000005" 432000 50, purchaseDemo 14 "U000005" 432000 50,
   purchaseDemo 15 "U000005" 432000 50]

/-- Two users with one identical purchase each: every raw metric has a single
distinct value, the low-cardinality edge case of the quantile cut. -/
def lowVarietyEvents : List Event :=
  [purchaseDemo 1 "U000001" 86400 10, purchaseDemo 2 "U000002" 86400 10]

/-- The first RFM row produced on rfmDemoEvents at instant 864000. -/
def c6Row1 : RfmRow :=
  { user_id := "U000001", recency := 9, frequency := 1, monetary := 10,
    R_score := 1, F_score := 1, M_score := 1, RFM_score := 3, segment := "Lost" }

/-- The full RFM output on rfmDemoEvents at instant 864000 (day 10). -/
def rfmRowsAt10 : List RfmRow :=
  [c6Row1,
   { user_id := "U000002", recency := 8, frequency := 2, monetary := 40,
     R_score := 2, F_score := 2, M_score := 2, RFM_score := 6,
     segment := "Can\x27t Lose" },
   { user_id := "U000003", recency := 7, frequency := 3, monetary := 90,
     R_score := 3, F_score := 3, M_score := 3, RFM_score := 9,
     segment := "At Risk" },
   { user_id := "U000004", recency := 6, frequency := 4, monetary := 160,
     R_score := 4, F_score := 4, M_score := 4, RFM_score := 12,
     segment := "Loyal Customers" },
   { user_id := "U000005", recency := 5, frequency := 5, monetary := 250,
     R_score := 5, F_score := 5, M_score := 5, RFM_score := 15,
     segment := "Champions" }]

/-- The full RFM output on the same events one day later (instant 950400):
every recency shifts by one day, so the output differs. -/
def rfmRowsAt11 : List RfmRow :=
  [{ user_id := "U000001", recency := 10, frequency := 1, monetary := 10,
     R_score := 1, F_score := 1, M_score := 1, RFM_score := 3, segment := "Lost" },
   { user_id := "U000002", recency := 9, frequency := 2, monetary := 40,
     R_score := 2, F_score := 2, M_score := 2, RFM_score := 6,
     segment := "Can\x27t Lose" },
   { user_id := "U000003", recency := 8, frequency := 3, monetary := 90,
     R_score := 3, F_score := 3, M_score := 3, RFM_score := 9,
     segment := "At Risk" },
   { user_id := "U000004", recency := 7, frequency := 4, monetary := 160,
     R_score := 4, F_score := 4, M_score := 4, RFM_score := 12,
     segment := "Loyal Customers" },
   { user_id := "U000005", recency := 6, frequency := 5, monetary := 250,
     R_score := 5, F_score := 5, M_score := 5, RFM_score := 15,
     segment := "Champions" }]

/-! Basic lemmas about the random-source primitives. -/

theorem randint_ge (a b : Nat) (r : Rng) : a ≤ (randint a b r).1 :=
  Nat.le_add_right a _

theorem randint_le {a b : Nat} (h : a ≤ b) (r : Rng) : (randint a b r).1 ≤ b := by
  unfold randint
  have h0 : 0 < b + 1 - a := by omega
  have := Nat.mod_lt r.next.1 h0
  simp only
  omega

theorem removeNth_subset {α : Type} :
    ∀ (l : List α) (i : Nat), ∀ x ∈ removeNth l i, x ∈ l := by
  intro l
  induction l with
  | nil => intro i x hx; simp [removeNth] at hx
  | cons a tl ih =>
    intro i x hx
    cases i with
    | zero =>
      simp only [removeNth] at hx
      exact List.mem_cons_of_mem _ hx
    | succ n =>
      simp only [removeNth] at hx
      rcases List.mem_cons.mp hx with h | h
      · exact h ▸ List.mem_cons_self a tl
      · exact List.mem_cons_of_mem _ (ih n x h)

theorem length_removeNth {α : Type} :
    ∀ (l : List α) (i : Nat), i < l.length →
      (removeNth l i).length = l.length - 1 := by
  intro l
  induction l with
  | nil => intro i h; simp at h
  | cons a tl ih =>
    intro i h
    cases i with
    | zero => simp [removeNth]
    | succ n =>
      have hn : n < tl.length := by simpa using h
      simp [removeNth, ih n hn]
      omega

theorem randSample_subset {α : Type} :
    ∀ (k : Nat) (l : List α) (r : Rng), ∀ x ∈ (randSample l k r).1, x ∈ l := by
  intro k
  induction k with
  | zero =>
    intro l r x hx
    cases l <;> simp [randSample] at hx
  | succ k ih =>
    intro l r x hx
    cases l with
    | nil => simp [randSample] at hx
    | cons a tl =>
      simp only [randSample] at hx
      rcases List.mem_cons.mp hx with h | h
      · exact h ▸ List.get_mem _ _ _
      · exact removeNth_subset _ _ x (ih _ _ x h)

theorem randSample_length {α : Type} :
    ∀ (k : Nat) (l : List α) (r : Rng), k ≤ l.length →
      (randSample l k r).1.length = k := by
  intro k
  induction k with
  | zero => intro l r _; cases l <;> simp [randSample]
  | succ k ih =>
    intro l r h
    cases l with
    | nil => simp at h
    | cons a tl =>
      have hi : r.next.1 % (tl.length + 1) < tl.length + 1 :=
        Nat.mod_lt _ (Nat.succ_pos tl.length)
      have hrl : (removeNth (a :: tl) (r.next.1 % (tl.length + 1))).length =
          tl.length := by
        have := length_removeNth (a :: tl) (r.next.1 % (tl.length + 1))
          (by simpa using hi)
        simpa using this
      have hk : k ≤ (removeNth (a :: tl) (r.next.1 % (tl.length + 1))).length := by
        rw [hrl]; simpa using h
      simp only [randSample, List.length_cons]
      rw [ih _ _ hk]

/-! Lemmas about the session clock predicates. -/

theorem lastT_append (t : Int) (l1 l2 : List Event) :
    lastT t (l1 ++ l2) = lastT (lastT t l1) l2 := by
  induction l1 generalizing t with
  | nil => rfl
  | cons e es ih => simpa [lastT] using ih e.timestamp

theorem tsAsc_append {t : Int} {l1 l2 : List Event} :
    tsAsc t (l1 ++ l2) ↔ tsAsc t l1 ∧ tsAsc (lastT t l1) l2 := by
  induction l1 generalizing t with
  | nil => simp [tsAsc, lastT]
  | cons e es ih => simp [tsAsc, lastT, ih, and_assoc]

/-! Specifications of the three per-session event loops. -/

theorem viewLoop_spec (products : List Product) (uid : String) (sid : Nat) :
    ∀ (n eid : Nat) (t : Int) (r : Rng),
      (viewLoop products uid sid n eid t r).1.length = n ∧
      (viewLoop products uid sid n eid t r).2.1.length = n ∧
      (∀ x ∈ (viewLoop products uid sid n eid t r).2.1,
        x.event_type = EventType.product_view) ∧
      (viewLoop products uid sid n eid t r).2.1.map (fun x => x.product_id) =
        (viewLoop products uid sid n eid t r).1.map (fun p => some p.product_id) ∧
      tsAsc t (viewLoop products uid sid n eid t r).2.1 ∧
      (viewLoop products uid sid n eid t r).2.2.1 =
        lastT t (viewLoop products uid sid n eid t r).2.1 := by
  intro n
  induction n with
  | zero => intro eid t r; simp [viewLoop, tsAsc, lastT]
  | succ n ih =>
    intro eid t r
    have hg : 1 ≤ (randint 1 5 (randChoice products r).2).1 := randint_ge 1 5 _
    obtain ⟨h1, h2, h3, h4, h5, h6⟩ := ih (eid + 1)
      (t + ((randint 1 5 (randChoice products r).2).1 : Int) * 60)
      (randint 1 5 (randChoice products r).2).2
    simp only [viewLoop, List.length_cons, List.map_cons, List.mem_cons]
    refine ⟨by rw [h1], by rw [h2], ?_, ?_, ?_, ?_⟩
    · rintro x (rfl | hx)
      · rfl
      · exact h3 x hx
    · rw [h4]; rfl
    · refine ⟨?_, h5⟩
      show t < t + ((randint 1 5 (randChoice products r).2).1 : Int) * 60
      omega
    · simpa [lastT, viewEvent] using h6

theorem cartLoop_spec (uid : String) (sid : Nat) :
    ∀ (l : List Product) (eid : Nat) (t : Int) (r : Rng),
      (cartLoop uid sid l eid t r).1.length = l.length ∧
      (∀ x ∈ (cartLoop uid sid l eid t r).1,
        x.event_type = EventType.add_to_cart) ∧
      (cartLoop uid sid l eid t r).1.map (fun x => x.product_id) =
        l.map (fun p => some p.product_id) ∧
      tsAsc t (cartLoop uid sid l eid t r).1 ∧
      (cartLoop uid sid l eid t r).2.1 = lastT t (cartLoop uid sid l eid t r).1 := by
  intro l
  induction l with
  | nil => intro eid t r; simp [cartLoop, tsAsc, lastT]
  | cons p ps ih =>
    intro eid t r
    have hg : 1 ≤ (randint 1 3 r).1 := randint_ge 1 3 _
    obtain ⟨h1, h2, h3, h4, h5⟩ := ih (eid + 1)
      (t + ((randint 1 3 r).1 : Int) * 60) (randint 1 3 (randint 1 3 r).2).2
    simp only [cartLoop, List.length_cons, List.map_cons, List.mem_cons]
    refine ⟨by rw [h1], ?_, ?_, ?_, ?_⟩
    · rintro x (rfl | hx)
      · rfl
      · exact h2 x hx
    · rw [h3]; rfl
    · refine ⟨?_, h4⟩
      show t < t + ((randint 1 3 r).1 : Int) * 60
      omega
    · simpa [lastT, cartEvent] using h5

theorem purchLoop_spec (uid : String) (sid : Nat) :
    ∀ (l : List Product) (eid : Nat) (t : Int) (r : Rng),
      (purchLoop uid sid l eid t r).1.length = l.length ∧
      (∀ x ∈ (purchLoop uid sid l eid t r).1,
        x.event_type = EventType.purchase) ∧
      (purchLoop uid sid l eid t r).1.map (fun x => x.product_id) =
        l.map (fun p => some p.product_id) ∧
      tsAsc t (purchLoop uid sid l eid t r).1 ∧
      (purchLoop uid sid l eid t r).2.1 =
        lastT t (purchLoop uid sid l eid t r).1 := by
  intro l
  induction l with
  | nil => intro eid t r; simp [purchLoop, tsAsc, lastT]
  | cons p ps ih =>
    intro eid t r
    have hg : 1 ≤ (randint 1 2 r).1 := randint_ge 1 2 _
    obtain ⟨h1, h2, h3, h4, h5⟩ := ih (eid + 1)
      (t + ((randint 1 2 r).1 : Int) * 60) (randint 1 2 (randint 1 2 r).2).2
    simp only [purchLoop, List.length_cons, List.map_cons, List.mem_cons]
    refine ⟨by rw [h1], ?_, ?_, ?_, ?_⟩
    · rintro x (rfl | hx)
      · rfl
      · exact h2 x hx
    · rw [h3]; rfl
    · refine ⟨?_, h4⟩
      show t < t + ((randint 1 2 r).1 : Int) * 60
      omega
    · simpa [lastT, purchaseEvent] using h5

/-- Specification of everything a session emits after the browse loop: an
add_to_cart block of one or two items drawn from the viewed products, an
optional purchase block drawn from the cart, and a final session_end, with
strictly increasing timestamps from the end of the browse loop. -/
theorem cartAndRest_spec (uid : String) (sid pProb eidBase : Nat)
    (sps : List Product) (t1 : Int) (r1 : Rng) (hne : sps ≠ []) :
    ∃ cs ps e,
      (cartAndRest uid sid pProb eidBase sps t1 r1).1 = cs ++ (ps ++ [e]) ∧
      (∀ x ∈ cs, x.event_type = EventType.add_to_cart) ∧
      (∀ x ∈ ps, x.event_type = EventType.purchase) ∧
      e.event_type = EventType.session_end ∧
      tsAsc t1 (cs ++ (ps ++ [e])) ∧
      1 ≤ cs.length ∧ cs.length ≤ 2 ∧
      (∀ x ∈ cs, ∃ p ∈ sps, x.product_id = some p.product_id) ∧
      (∀ x ∈ ps, ∃ y ∈ cs, x.product_id = y.product_id) := by
  have hspsE : sps.isEmpty = false := by
    cases sps with
    | nil => exact absurd rfl hne
    | cons a tl => rfl
  have hsl : 1 ≤ sps.length := List.length_pos.mpr hne
  have hk1 : 1 ≤ (randint 1 2 r1).1 := randint_ge 1 2 r1
  have hk2 : (randint 1 2 r1).1 ≤ 2 := randint_le (by norm_num) r1
  simp only [cartAndRest, hspsE, Bool.false_eq_true, if_false]
  set sc := randSample sps (min sps.length (randint 1 2 r1).1) (randint 1 2 r1).2
    with hsc
  have hscl : sc.1.length = min sps.length (randint 1 2 r1).1 := by
    rw [hsc]
    exact randSample_length _ _ _ (Nat.min_le_left _ _)
  have hscsub : ∀ x ∈ sc.1, x ∈ sps := by
    rw [hsc]; exact randSample_subset _ _ _
  have hcl1 : 1 ≤ sc.1.length := by
    rw [hscl]; exact Nat.le_min.mpr ⟨hsl, hk1⟩
  have hcl2 : sc.1.length ≤ 2 := by
    rw [hscl]; exact le_trans (Nat.min_le_right _ _) hk2
  set cl := cartLoop uid sid sc.1 eidBase t1 sc.2 with hcl
  obtain ⟨c1, c2, c3, c4, c5⟩ := cartLoop_spec uid sid sc.1 eidBase t1 sc.2
  rw [← hcl] at c1 c2 c3 c4 c5
  have hcll1 : 1 ≤ cl.1.length := by rw [c1]; exact hcl1
  have hcll2 : cl.1.length ≤ 2 := by rw [c1]; exact hcl2
  have hcsps : ∀ x ∈ cl.1, ∃ p ∈ sps, x.product_id = some p.product_id := by
    intro x hx
    have : x.product_id ∈ cl.1.map (fun y => y.product_id) :=
      List.mem_map_of_mem _ hx
    rw [c3] at this
    obtain ⟨p, hp, hpe⟩ := List.mem_map.mp this
    exact ⟨p, hscsub p hp, hpe.symm⟩
  set b := bern pProb cl.2.2 with hb
  by_cases hcond : ((b.1 && !sc.1.isEmpty) = true)
  · rw [if_pos hcond]
    set pk := randint 1 sc.1.length b.2 with hpk
    set sp := randSample sc.1 pk.1 pk.2 with hsp
    have hspsub : ∀ x ∈ sp.1, x ∈ sc.1 := by
      rw [hsp]; exact randSample_subset _ _ _
    set pl := purchLoop uid sid sp.1 (eidBase + cl.1.length) cl.2.1 sp.2 with hpl
    obtain ⟨p1, p2, p3, p4, p5⟩ :=
      purchLoop_spec uid sid sp.1 (eidBase + cl.1.length) cl.2.1 sp.2
    rw [← hpl] at p1 p2 p3 p4 p5
    have hg : 1 ≤ (randint 1 5 pl.2.2).1 := randint_ge 1 5 _
    refine ⟨cl.1, pl.1, sessionEndEvent (eidBase + cl.1.length + pl.1.length)
      uid sid (pl.2.1 + ((randint 1 5 pl.2.2).1 : Int) * 60), rfl,
      c2, p2, rfl, ?_, hcll1, hcll2, hcsps, ?_⟩
    · rw [tsAsc_append]
      refine ⟨c4, ?_⟩
      rw [tsAsc_append, ← c5]
      refine ⟨p4, ?_⟩
      rw [← p5]
      simp only [tsAsc, sessionEndEvent, and_true]
      omega
    · intro x hx
      have : x.product_id ∈ pl.1.map (fun y => y.product_id) :=
        List.mem_map_of_mem _ hx
      rw [p3] at this
      obtain ⟨q, hq, hqe⟩ := List.mem_map.mp this
      have : some q.product_id ∈ sc.1.map (fun p => some p.product_id) :=
        List.mem_map_of_mem _ (hspsub q hq)
      rw [← c3] at this
      obtain ⟨y, hy, hye⟩ := List.mem_map.mp this
      exact ⟨y, hy, by rw [← hqe, hye]⟩
  · rw [if_neg hcond]
    have hg : 1 ≤ (randint 1 5 b.2).1 := randint_ge 1 5 _
    refine ⟨cl.1, [], sessionEndEvent (eidBase + cl.1.length) uid sid
      (cl.2.1 + ((randint 1 5 b.2).1 : Int) * 60), rfl, c2,
      by intro x hx; simp at hx, rfl, ?_, hcll1, hcll2, hcsps,
      by intro x hx; simp at hx⟩
    rw [tsAsc_append, List.nil_append, ← c5]
    refine ⟨c4, ?_⟩
    simp only [tsAsc, sessionEndEvent, and_true]
    omega

/-- Master specification of one generated session: its event list decomposes
as session_start, product_view block, add_to_cart block, optional purchase
block, session_end, with strictly increasing timestamps, at least one view, a
cart of one or two items drawn from the views, and purchases drawn from the
cart. -/
theorem genSession_spec (products : List Product) (uid : String) (regDay : Int)
    (daysActive pProb asl nEvents : Nat) (r : Rng) :
    ∃ s vs cs ps e,
      (genSession products uid regDay daysActive pProb asl nEvents r).1 =
        s :: (vs ++ (cs ++ (ps ++ [e]))) ∧
      s.event_type = EventType.session_start ∧
      (∀ x ∈ vs, x.event_type = EventType.product_view) ∧
      (∀ x ∈ cs, x.event_type = EventType.add_to_cart) ∧
      (∀ x ∈ ps, x.event_type = EventType.purchase) ∧
      e.event_type = EventType.session_end ∧
      tsAsc s.timestamp (vs ++ (cs ++ (ps ++ [e]))) ∧
      1 ≤ vs.length ∧ 1 ≤ cs.length ∧ cs.length ≤ 2 ∧
      (∀ x ∈ cs, ∃ y ∈ vs, x.product_id = y.product_id) ∧
      (∀ x ∈ ps, ∃ y ∈ cs, x.product_id = y.product_id) := by
  simp only [genSession]
  set dOff := randint 0 daysActive r with hdOff
  set hh := randint 8 22 dOff.2 with hhh
  set mm := randint 0 59 hh.2 with hmm
  set ss := randint 0 59 mm.2 with hss
  set t0 : Int := (regDay + (dOff.1 : Int)) * 86400 + (hh.1 : Int) * 3600 +
    (mm.1 : Int) * 60 + (ss.1 : Int) with ht0
  set nv := randint 1 asl ss.2 with hnv
  set vl := viewLoop products uid (nEvents + 1) nv.1 (nEvents + 2) t0 nv.2 with hvl
  obtain ⟨v1, v2, v3, v4, v5, v6⟩ :=
    viewLoop_spec products uid (nEvents + 1) nv.1 (nEvents + 2) t0 nv.2
  rw [← hvl] at v1 v2 v3 v4 v5 v6
  have hnv1 : 1 ≤ nv.1 := by rw [hnv]; exact randint_ge 1 asl ss.2
  have hvs1 : 1 ≤ vl.2.1.length := by rw [v2]; exact hnv1
  have hne : vl.1 ≠ [] := by
    have hp : 0 < vl.1.length := by rw [v1]; omega
    exact List.length_pos.mp hp
  obtain ⟨cs, ps, e, hEq, hcT, hpT, heT, hAsc, hc1, hc2, hcsub, hpsub⟩ :=
    cartAndRest_spec uid (nEvents + 1) pProb (nEvents + 2 + vl.2.1.length)
      vl.1 vl.2.2.1 vl.2.2.2 hne
  refine ⟨sessionStartEvent (nEvents + 1) uid (nEvents + 1) t0, vl.2.1, cs, ps,
    e, ?_, rfl, v3, hcT, hpT, heT, ?_, hvs1, hc1, hc2, ?_, hpsub⟩
  · rw [hEq]
  · simp only [sessionStartEvent]
    rw [tsAsc_append]
    refine ⟨v5, ?_⟩
    rw [← v6]
    exact hAsc
  · intro x hx
    obtain ⟨p, hp, hpe⟩ := hcsub x hx
    have hmem : some p.product_id ∈ vl.1.map (fun q => some q.product_id) :=
      List.mem_map_of_mem _ hp
    rw [← v4] at hmem
    obtain ⟨y, hy, hye⟩ := List.mem_map.mp hmem
    exact ⟨y, hy, by rw [hpe, hye]⟩

/-! Filter and count helpers over typed event blocks. -/

theorem filter_ty_eq_nil {ty ty2 : EventType} (hne : ty ≠ ty2) :
    ∀ l : List Event, (∀ x ∈ l, x.event_type = ty) →
      List.filter (fun e => decide (e.event_type = ty2)) l = [] := by
  intro l
  induction l with
  | nil => intro _; rfl
  | cons a as ih =>
    intro h
    have ha : (decide (a.event_type = ty2)) = false := by
      rw [h a (List.mem_cons_self a as)]
      simp [hne]
    simp [List.filter_cons, ha,
      ih (fun x hx => h x (List.mem_cons_of_mem _ hx))]

theorem filter_ty_eq_self (ty : EventType) :
    ∀ l : List Event, (∀ x ∈ l, x.event_type = ty) →
      List.filter (fun e => decide (e.event_type = ty)) l = l := by
  intro l
  induction l with
  | nil => intro _; rfl
  | cons a as ih =>
    intro h
    have ha : (decide (a.event_type = ty)) = true := by
      rw [h a (List.mem_cons_self a as)]
      simp
    simp [List.filter_cons, ha,
      ih (fun x hx => h x (List.mem_cons_of_mem _ hx))]

theorem countP_ty_eq_zero {ty ty2 : EventType} (hne : ty ≠ ty2)
    (l : List Event) (h : ∀ x ∈ l, x.event_type = ty) :
    List.countP (fun e => decide (e.event_type = ty2)) l = 0 := by
  rw [List.countP_eq_length_filter, filter_ty_eq_nil hne l h]
  rfl

theorem countP_ty_eq_length (ty : EventType) (l : List Event)
    (h : ∀ x ∈ l, x.event_type = ty) :
    List.countP (fun e => decide (e.event_type = ty)) l = l.length := by
  rw [List.countP_eq_length_filter, filter_ty_eq_self ty l h]

/-- Event-kind counts of one generated session: exactly one session_start, at
least one product_view, and one or two add_to_cart events. -/
theorem genSession_counts (products : List Product) (uid : String)
    (regDay : Int) (daysActive pProb asl nEvents : Nat) (r : Rng) :
    List.countP (fun x => decide (x.event_type = EventType.session_start))
      (genSession products uid regDay daysActive pProb asl nEvents r).1 = 1 ∧
    1 ≤ List.countP (fun x => decide (x.event_type = EventType.product_view))
      (genSession products uid regDay daysActive pProb asl nEvents r).1 ∧
    1 ≤ List.countP (fun x => decide (x.event_type = EventType.add_to_cart))
      (genSession products uid regDay daysActive pProb asl nEvents r).1 ∧
    List.countP (fun x => decide (x.event_type = EventType.add_to_cart))
      (genSession products uid regDay daysActive pProb asl nEvents r).1 ≤ 2 := by
  obtain ⟨s, vs, cs, ps, e, h1, h2, h3, h4, h5, h6, _, hv1, hc1, hc2, _, _⟩ :=
    genSession_spec products uid regDay daysActive pProb asl nEvents r
  have he : ∀ x ∈ [e], x.event_type = EventType.session_end := by
    intro x hx
    rw [List.mem_singleton.mp hx]
    exact h6
  rw [h1]
  refine ⟨?_, ?_, ?_, ?_⟩
  · simp [List.countP_cons, List.countP_append, h2,
      countP_ty_eq_zero (show EventType.product_view ≠ EventType.session_start
        by decide) vs h3,
      countP_ty_eq_zero (show EventType.add_to_cart ≠ EventType.session_start
        by decide) cs h4,
      countP_ty_eq_zero (show EventType.purchase ≠ EventType.session_start
        by decide) ps h5,
      countP_ty_eq_zero (show EventType.session_end ≠ EventType.session_start
        by decide) [e] he]
  · simp [List.countP_cons, List.countP_append, h2,
      countP_ty_eq_length EventType.product_view vs h3,
      countP_ty_eq_zero (show EventType.add_to_cart ≠ EventType.product_view
        by decide) cs h4,
      countP_ty_eq_zero (show EventType.purchase ≠ EventType.product_view
        by decide) ps h5,
      countP_ty_eq_zero (show EventType.session_end ≠ EventType.product_view
        by decide) [e] he]
    omega
  · simp [List.countP_cons, List.countP_append, h2,
      countP_ty_eq_zero (show EventType.product_view ≠ EventType.add_to_cart
        by decide) vs h3,
      countP_ty_eq_length EventType.add_to_cart cs h4,
      countP_ty_eq_zero (show EventType.purchase ≠ EventType.add_to_cart
        by decide) ps h5,
      countP_ty_eq_zero (show EventType.session_end ≠ EventType.add_to_cart
        by decide) [e] he]
    omega
  · simp [List.countP_cons, List.countP_append, h2,
      countP_ty_eq_zero (show EventType.product_view ≠ EventType.add_to_cart
        by decide) vs h3,
      countP_ty_eq_length EventType.add_to_cart cs h4,
      countP_ty_eq_zero (show EventType.purchase ≠ EventType.add_to_cart
        by decide) ps h5,
      countP_ty_eq_zero (show EventType.session_end ≠ EventType.add_to_cart
        by decide) [e] he]
    omega

/-- The session loop emits exactly its requested number of sessions. -/
theorem sessionsLoop_start_count (products : List Product) (uid : String)
    (regDay : Int) (daysActive pProb asl : Nat) :
    ∀ (m nEvents : Nat) (r : Rng),
      List.countP (fun x => decide (x.event_type = EventType.session_start))
        (sessionsLoop products uid regDay daysActive pProb asl m nEvents r).1 =
        m := by
  intro m
  induction m with
  | zero => intro nE r; simp [sessionsLoop]
  | succ m ih =>
    intro nE r
    simp only [sessionsLoop, List.countP_append]
    rw [ih, (genSession_counts products uid regDay daysActive pProb asl nE r).1]
    omega

/-- C1: for every generated session and every state of the random source, the
emitted events appear in the order session_start, then the product_view
events, then the add_to_cart events, then the purchase events (possibly none,
when the Bernoulli purchase trial fails), then session_end, and the
timestamps within the session are strictly increasing. -/
theorem c1_session_event_order (products : List Product) (uid : String)
    (regDay : Int) (daysActive pProb asl nEvents : Nat) (r : Rng) :
    ∃ s vs cs ps e,
      (genSession products uid regDay daysActive pProb asl nEvents r).1 =
        s :: (vs ++ (cs ++ (ps ++ [e]))) ∧
      s.event_type = EventType.session_start ∧
      (∀ x ∈ vs, x.event_type = EventType.product_view) ∧
      (∀ x ∈ cs, x.event_type = EventType.add_to_cart) ∧
      (∀ x ∈ ps, x.event_type = EventType.purchase) ∧
      e.event_type = EventType.session_end ∧
      tsAsc s.timestamp (vs ++ (cs ++ (ps ++ [e]))) := by
  obtain ⟨s, vs, cs, ps, e, h1, h2, h3, h4, h5, h6, h7, _⟩ :=
    genSession_spec products uid regDay daysActive pProb asl nEvents r
  exact ⟨s, vs, cs, ps, e, h1, h2, h3, h4, h5, h6, h7⟩

/-- C3: within every generated session, the product references of the
purchase events are contained in those of the add_to_cart events, which are
contained in those of the product_view events. -/
theorem c3_purchase_cart_view_containment (products : List Product)
    (uid : String) (regDay : Int) (daysActive pProb asl nEvents : Nat)
    (r : Rng) :
    (∀ q ∈ sessionPids EventType.purchase
        (genSession products uid regDay daysActive pProb asl nEvents r).1,
      q ∈ sessionPids EventType.add_to_cart
        (genSession products uid regDay daysActive pProb asl nEvents r).1) ∧
    (∀ q ∈ sessionPids EventType.add_to_cart
        (genSession products uid regDay daysActive pProb asl nEvents r).1,
      q ∈ sessionPids EventType.product_view
        (genSession products uid regDay daysActive pProb asl nEvents r).1) := by
  obtain ⟨s, vs, cs, ps, e, h1, h2, h3, h4, h5, h6, _, _, _, _, hcv, hpc⟩ :=
    genSession_spec products uid regDay daysActive pProb asl nEvents r
  have he : ∀ x ∈ [e], x.event_type = EventType.session_end := by
    intro x hx
    rw [List.mem_singleton.mp hx]
    exact h6
  have hsP : (decide (s.event_type = EventType.purchase)) = false := by
    rw [h2]; decide
  have hsC : (decide (s.event_type = EventType.add_to_cart)) = false := by
    rw [h2]; decide
  have hsV : (decide (s.event_type = EventType.product_view)) = false := by
    rw [h2]; decide
  have hP : sessionPids EventType.purchase
      (s :: (vs ++ (cs ++ (ps ++ [e])))) = ps.map (fun x => x.product_id) := by
    simp [sessionPids, List.filter_cons, hsP, List.filter_append,
      filter_ty_eq_nil (show EventType.product_view ≠ EventType.purchase
        by decide) vs h3,
      filter_ty_eq_nil (show EventType.add_to_cart ≠ EventType.purchase
        by decide) cs h4,
      filter_ty_eq_self EventType.purchase ps h5,
      filter_ty_eq_nil (show EventType.session_end ≠ EventType.purchase
        by decide) [e] he]
  have hC : sessionPids EventType.add_to_cart
      (s :: (vs ++ (cs ++ (ps ++ [e])))) = cs.map (fun x => x.product_id) := by
    simp [sessionPids, List.filter_cons, hsC, List.filter_append,
      filter_ty_eq_nil (show EventType.product_view ≠ EventType.add_to_cart
        by decide) vs h3,
      filter_ty_eq_self EventType.add_to_cart cs h4,
      filter_ty_eq_nil (show EventType.purchase ≠ EventType.add_to_cart
        by decide) ps h5,
      filter_ty_eq_nil (show EventType.session_end ≠ EventType.add_to_cart
        by decide) [e] he]
  have hV : sessionPids EventType.product_view
      (s :: (vs ++ (cs ++ (ps ++ [e])))) = vs.map (fun x => x.product_id) := by
    simp [sessionPids, List.filter_cons, hsV, List.filter_append,
      filter_ty_eq_self EventType.product_view vs h3,
      filter_ty_eq_nil (show EventType.add_to_cart ≠ EventType.product_view
        by decide) cs h4,
      filter_ty_eq_nil (show EventType.purchase ≠ EventType.product_view
        by decide) ps h5,
      filter_ty_eq_nil (show EventType.session_end ≠ EventType.product_view
        by decide) [e] he]
  rw [h1, hP, hC, hV]
  constructor
  · intro q hq
    obtain ⟨x, hx, hxe⟩ := List.mem_map.mp hq
    obtain ⟨y, hy, hye⟩ := hpc x hx
    exact List.mem_map.mpr ⟨y, hy, by rw [← hye, hxe]⟩
  · intro q hq
    obtain ⟨x, hx, hxe⟩ := List.mem_map.mp hq
    obtain ⟨y, hy, hye⟩ := hcv x hx
    exact List.mem_map.mpr ⟨y, hy, by rw [← hye, hxe]⟩

/-- C10: every generated session emits at least one product_view event and an
add_to_cart batch of size one or two, for every state of the random source. -/
theorem c10_view_cart_nonempty (products : List Product) (uid : String)
    (regDay : Int) (daysActive pProb asl nEvents : Nat) (r : Rng) :
    1 ≤ List.countP (fun x => decide (x.event_type = EventType.product_view))
      (genSession products uid regDay daysActive pProb asl nEvents r).1 ∧
    1 ≤ List.countP (fun x => decide (x.event_type = EventType.add_to_cart))
      (genSession products uid regDay daysActive pProb asl nEvents r).1 ∧
    List.countP (fun x => decide (x.event_type = EventType.add_to_cart))
      (genSession products uid regDay daysActive pProb asl nEvents r).1 ≤ 2 := by
  obtain ⟨_, h2, h3, h4⟩ :=
    genSession_counts products uid regDay daysActive pProb asl nEvents r
  exact ⟨h2, h3, h4⟩

/-- C2 (amended): the number of sessions generated for a user equals
min(floor(days_active / 30 * sessions_per_month), 20) where days_active =
end_date - registration_date, is zero (user skipped) when days_active ≤ 0,
and never exceeds 20. -/
theorem c2_session_count_formula (products : List Product) (u : User)
    (endDate : Int) (nEvents : Nat) (r : Rng) :
    List.countP (fun x => decide (x.event_type = EventType.session_start))
      (userEvents products u endDate nEvents r).1 =
      (if endDate - u.registration_date ≤ 0 then 0
       else min ((endDate - u.registration_date).toNat *
         (segmentParams u.segment r).1.1 / 30) 20) ∧
    List.countP (fun x => decide (x.event_type = EventType.session_start))
      (userEvents products u endDate nEvents r).1 ≤ 20 := by
  by_cases h : endDate - u.registration_date ≤ 0
  · simp only [userEvents, h, if_true, if_pos h]
    simp
  · simp only [userEvents, h, if_false, if_neg h]
    rw [sessionsLoop_start_count]
    refine ⟨rfl, ?_⟩
    exact Nat.min_le_right _ _

/-- C2 counterexample: a New-segment user registered on day 151 of a 180-day
window has days_active = 29 and sessions_per_month = 1; the code emits
int(29 / 30 * 1) = 0 sessions, while the claimed formula
min(round(29 / 30 * 1), 20) gives 1. -/
theorem c2_round_counterexample :
    (userEvents [] newUser29 180 0 rngZero).1 = [] ∧
    min (Int.toNat (pythonRound
      ((((180 : Int) - newUser29.registration_date : Int) : ℚ) / 30 *
        (((segmentParams newUser29.segment rngZero).1.1 : ℕ) : ℚ)))) 20 = 1 := by
  constructor
  · rfl
  · have h1 : ((180 : Int) - newUser29.registration_date) = 29 := by rfl
    have h2 : (segmentParams newUser29.segment rngZero).1.1 = 1 := by rfl
    rw [h1, h2]
    have hf : ⌊((29 : Int) : ℚ) / 30 * ((1 : ℕ) : ℚ)⌋ = 0 := by
      norm_num
    norm_num [pythonRound, hf]

/-! Lemmas about the quantile-cut model and the RFM row assembly. -/

theorem binIndex_le (l : List ℚ) (x : ℚ) : binIndex l x ≤ l.length := by
  induction l with
  | nil => simp [binIndex]
  | cons e es ih =>
    simp only [binIndex, List.length_cons]
    split
    · omega
    · omega

theorem qcut5_ok_mem (v : List ℚ) (labels out : List Int)
    (hlen : labels.length = 5) (h : qcut5 v labels = Except.ok out) :
    ∀ y ∈ out, y ∈ labels := by
  simp only [qcut5] at h
  split at h
  · injection h with h
    subst h
    intro y hy
    obtain ⟨x, hx, hxe⟩ := List.mem_map.mp hy
    have hb := binIndex_le [quantileAt (sortQ v) 1, quantileAt (sortQ v) 2,
      quantileAt (sortQ v) 3, quantileAt (sortQ v) 4] x
    simp only [List.length_cons, List.length_nil] at hb
    have hlt : binIndex [quantileAt (sortQ v) 1, quantileAt (sortQ v) 2,
        quantileAt (sortQ v) 3, quantileAt (sortQ v) 4] x < labels.length := by
      omega
    rw [← hxe, List.getD_eq_getElem labels 0 hlt]
    exact List.getElem_mem hlt
  · exact absurd h (by simp)

theorem zipRows_mem :
    ∀ (bs : List (String × Int × Nat × ℚ)) (xs ys zs : List Int)
      (row : RfmRow), row ∈ zipRows bs xs ys zs →
      (∃ x ∈ xs, row.R_score = x) ∧ (∃ y ∈ ys, row.F_score = y) ∧
      (∃ z ∈ zs, row.M_score = z) ∧
      row.RFM_score = row.R_score + row.F_score + row.M_score ∧
      row.segment = segmentCustomers row.RFM_score := by
  intro bs
  induction bs with
  | nil => intro xs ys zs row h; simp [zipRows] at h
  | cons b bs ih =>
    intro xs ys zs row h
    cases xs with
    | nil => simp [zipRows] at h
    | cons x xs =>
      cases ys with
      | nil => simp [zipRows] at h
      | cons y ys =>
        cases zs with
        | nil => simp [zipRows] at h
        | cons z zs =>
          rcases List.mem_cons.mp h with rfl | hmem
          · exact ⟨⟨x, List.mem_cons_self x xs, rfl⟩,
              ⟨y, List.mem_cons_self y ys, rfl⟩,
              ⟨z, List.mem_cons_self z zs, rfl⟩, rfl, rfl⟩
          · obtain ⟨⟨x', hx', hxe⟩, ⟨y', hy', hye⟩, ⟨z', hz', hze⟩, h4, h5⟩ :=
              ih xs ys zs row hmem
            exact ⟨⟨x', List.mem_cons_of_mem _ hx', hxe⟩,
              ⟨y', List.mem_cons_of_mem _ hy', hye⟩,
              ⟨z', List.mem_cons_of_mem _ hz', hze⟩, h4, h5⟩

/-- C6: whenever RFM scoring returns a result frame, every row has R, F and M
scores in 1..5, an RFM score equal to their sum and hence in 3..15, and a
segment label that is the fixed threshold function of the RFM score. -/
theorem c6_rfm_scores_range (events : List Event) (now : Int)
    (rows : List RfmRow) (h : calculateRfmScores events now = Except.ok rows)
    (row : RfmRow) (hrow : row ∈ rows) :
    (1 ≤ row.R_score ∧ row.R_score ≤ 5) ∧
    (1 ≤ row.F_score ∧ row.F_score ≤ 5) ∧
    (1 ≤ row.M_score ∧ row.M_score ≤ 5) ∧
    row.RFM_score = row.R_score + row.F_score + row.M_score ∧
    (3 ≤ row.RFM_score ∧ row.RFM_score ≤ 15) ∧
    row.segment = segmentCustomers row.RFM_score := by
  simp only [calculateRfmScores] at h
  split at h
  · injection h with h
    subst h
    simp at hrow
  · split at h
    · rename_i rs fs ms heqR heqF heqM
      injection h with h
      subst h
      obtain ⟨⟨x, hx, hxe⟩, ⟨y, hy, hye⟩, ⟨z, hz, hze⟩, h4, h5⟩ :=
        zipRows_mem _ _ _ _ row hrow
      have hxm := qcut5_ok_mem _ _ _ (by rfl) heqR x hx
      have hym := qcut5_ok_mem _ _ _ (by rfl) heqF y hy
      have hzm := qcut5_ok_mem _ _ _ (by rfl) heqM z hz
      have hx15 : 1 ≤ x ∧ x ≤ 5 := by
        rcases (show x = 5 ∨ x = 4 ∨ x = 3 ∨ x = 2 ∨ x = 1 by
          simpa using hxm) with rfl | rfl | rfl | rfl | rfl <;>
          exact ⟨by decide, by decide⟩
      have hy15 : 1 ≤ y ∧ y ≤ 5 := by
        rcases (show y = 1 ∨ y = 2 ∨ y = 3 ∨ y = 4 ∨ y = 5 by
          simpa using hym) with rfl | rfl | rfl | rfl | rfl <;>
          exact ⟨by decide, by decide⟩
      have hz15 : 1 ≤ z ∧ z ≤ 5 := by
        rcases (show z = 1 ∨ z = 2 ∨ z = 3 ∨ z = 4 ∨ z = 5 by
          simpa using hzm) with rfl | rfl | rfl | rfl | rfl <;>
          exact ⟨by decide, by decide⟩
      refine ⟨?_, ?_, ?_, h4, ?_, h5⟩
      · rw [hxe]; exact hx15
      · rw [hye]; exact hy15
      · rw [hze]; exact hz15
      · rw [h4, hxe, hye, hze]
        obtain ⟨ha, hb⟩ := hx15
        obtain ⟨hc, hd⟩ := hy15
        obtain ⟨he, hf⟩ := hz15
        omega
    · exact absurd h (by simp)

/-- C6 witness: the first row of the RFM output on the concrete demo log
satisfies all score-range and segment properties. -/
theorem c6_rfm_scores_range_witness :
    (1 ≤ c6Row1.R_score ∧ c6Row1.R_score ≤ 5) ∧
    (1 ≤ c6Row1.F_score ∧ c6Row1.F_score ≤ 5) ∧
    (1 ≤ c6Row1.M_score ∧ c6Row1.M_score ≤ 5) ∧
    c6Row1.RFM_score = c6Row1.R_score + c6Row1.F_score + c6Row1.M_score ∧
    (3 ≤ c6Row1.RFM_score ∧ c6Row1.RFM_score ≤ 15) ∧
    c6Row1.segment = segmentCustomers c6Row1.RFM_score :=
  c6_rfm_scores_range rfmDemoEvents 864000 rfmRowsAt10
    (by with_unfolding_all rfl) c6Row1 (by with_unfolding_all decide)

/-- C5: with purchases present but a raw metric of a single distinct value
(here two users with identical single purchases), the naive five-way quantile
cut has coinciding bin edges and RFM scoring raises instead of degrading
gracefully. -/
theorem c5_low_variety_raises :
    calculateRfmScores lowVarietyEvents 864000 =
      Except.error "Bin edges must be unique" := by
  with_unfolding_all rfl

/-- C4: on a log with zero session_start events, calculate_conversion_metrics
raises (missing column of an empty frame and division by zero) instead of
reporting zero rates, while funnel_data of dashboard.py reports all rates
as 0. -/
theorem c4_zero_sessions_raise :
    calculateConversionMetrics [] = Except.error "KeyError" ∧
    funnelRates [] = (0, 0, 0) := ⟨rfl, rfl⟩

/-- C7: the full generation pipeline is a pure function of the seed and the
parameters; two runs with equal seeds and parameters produce identical users,
catalogs and event logs. -/
theorem c7_generation_deterministic (numUsers numDays : Int)
    (seed1 seed2 : Nat) (h : seed1 = seed2) :
    generateSampleData numUsers numDays seed1 =
      generateSampleData numUsers numDays seed2 := by
  rw [h]

/-- C7 witness at seed 42. -/
theorem c7_generation_deterministic_witness :
    generateSampleData 5 60 42 = generateSampleData 5 60 42 :=
  c7_generation_deterministic 5 60 42 42 rfl

/-- C8 counterexample: the same event log scored at two different wall-clock
instants (day 10 and day 11) yields different RFM outputs, because recency
reads datetime.now(); the pipeline is not a function of seed and log alone. -/
theorem c8_wall_clock_dependence :
    calculateRfmScores rfmDemoEvents 864000 = Except.ok rfmRowsAt10 ∧
    calculateRfmScores rfmDemoEvents 950400 = Except.ok rfmRowsAt11 ∧
    rfmRowsAt10 ≠ rfmRowsAt11 :=
  ⟨by with_unfolding_all rfl, by with_unfolding_all rfl,
   by with_unfolding_all decide⟩

/-- C8 (amended): the metric computation is deterministic once the evaluation
instant is fixed alongside the event log. -/
theorem c8_fixed_instant_deterministic (events : List Event)
    (now1 now2 : Int) (h : now1 = now2) :
    calculateRfmScores events now1 = calculateRfmScores events now2 := by
  rw [h]

/-- C8 amended witness on the concrete demo log. -/
theorem c8_fixed_instant_deterministic_witness :
    calculateRfmScores rfmDemoEvents 864000 =
      calculateRfmScores rfmDemoEvents 864000 :=
  c8_fixed_instant_deterministic rfmDemoEvents 864000 864000 rfl

/-- C9 counterexample: constructing the generator with a negative population
does not fail; the pipeline proceeds and produces an empty user list and an
empty event log. -/
theorem c9_negative_population_counterexample :
    (generateSampleData (-5) 180 0).1 = [] ∧
    (generateSampleData (-5) 180 0).2.2 = [] := ⟨rfl, rfl⟩

/-- C9 (amended): construction performs no validation: any non-positive
population is accepted and yields an empty user list, and the catalog
categories are a fixed non-empty hardcoded list rather than a configurable
input. -/
theorem c9_no_validation (numUsers numDays startDate : Int) (r r2 : Rng)
    (h : numUsers ≤ 0) :
    (generateUsers (mkGenerator numUsers numDays startDate r).1 r2).1 = [] ∧
    categories ≠ [] := by
  constructor
  · have hnum : (mkGenerator numUsers numDays startDate r).1.num_users =
        numUsers := rfl
    simp only [generateUsers, hnum, Int.toNat_of_nonpos h, List.range_zero]
    rfl
  · decide

/-- C9 amended witness at population -5. -/
theorem c9_no_validation_witness :
    (generateUsers (mkGenerator (-5) 180 0 rngZero).1 rngZero).1 = [] ∧
    categories ≠ [] :=
  c9_no_validation (-5) 180 0 rngZero rngZero (by decide)

end UserBehavior
